import Mathlib

/-
Verification of the AI business-agent backend core.

Shallow embedding of the repository's deterministic logic:
  - AuthService.check_permissions        (src/backend/services/auth_service.py)
  - CRM lead handlers get_lead/update_lead   (src/backend/crm/router.py)
  - ERP task handlers get_task/update_task   (src/backend/erp/router.py)
  - AIService analytics: _generate_forecast, _identify_forecast_factors,
    _analyze_expenses, _analyze_employee_retention, _analyze_invoices
    (src/backend/app/services/ai_service.py)
  - ERP dashboard recommendations endpoint get_ai_recommendations
    (src/backend/app/api/endpoints/erp.py)

Modelling conventions: Python floats are embedded as rationals; the pandas
NaN produced by pct_change on the first row, by a skipna-empty mean, and by a
sample standard deviation over fewer than two values is embedded as
Option.none.  A standard deviation, once defined, is a real number
(Real.sqrt of the rational sample variance).  Python exceptions raised by the
embedded code paths (pandas indexing on an empty frame, integer division by
zero) are embedded as Except.error of a PyError value.  datetimes are embedded
as integers (days), string formatting of messages is abstracted to the
structured data the message interpolates.
-/

/-! ## Identity and permission check (auth_service.py) -/

/-- Mirrors the User ORM model of src/backend/database/models.py
(fields relevant to the auth and router code). -/
structure AuthUser where
  id : ℤ
  email : String
  is_active : Bool
  is_superuser : Bool
  role : String
deriving DecidableEq

/-- AuthService.check_permissions (auth_service.py lines 109-111):
return user.role == required_role or user.is_superuser. -/
def check_permissions (user : AuthUser) (required_role : String) : Bool :=
  user.role == required_role || user.is_superuser

/-! ## HTTP-level error taxonomy used by the routers -/

inductive HTTPError where
  | forbidden : HTTPError
  | notFound : String → HTTPError
deriving DecidableEq

/-! ## CRM lead store and handlers (crm/router.py) -/

/-- Mirrors the Lead ORM model of src/backend/database/models.py
(the JSON metadata column is omitted: no embedded handler touches it). -/
structure Lead where
  id : ℤ
  email : String
  name : String
  company : String
  phone : Option String
  status : String
  source : Option String
  score : ℚ
  created_at : ℤ
  updated_at : ℤ
deriving DecidableEq

/-- Mirrors the LeadUpdate pydantic model (crm/router.py lines 23-28);
a field is some v exactly when it is present in the request payload
(pydantic dict(exclude_unset=True)). -/
structure LeadUpdate where
  name : Option String
  company : Option String
  phone : Option String
  status : Option String
  source : Option String
deriving DecidableEq

/-- The setattr loop of update_lead (crm/router.py lines 145-146): each field
present in the exclude_unset payload dict is written onto the stored lead. -/
def applyLeadUpdate (l : Lead) (u : LeadUpdate) : Lead :=
  let l1 := match u.name with | some v => { l with name := v } | none => l
  let l2 := match u.company with | some v => { l1 with company := v } | none => l1
  let l3 := match u.phone with | some v => { l2 with phone := some v } | none => l2
  let l4 := match u.status with | some v => { l3 with status := v } | none => l3
  match u.source with | some v => { l4 with source := some v } | none => l4

/-- GET /leads/{lead_id} (crm/router.py lines 115-125): first match on id or
404.  The db.query(...).filter(Lead.id == lead_id).first() call is embedded as
List.find? over the stored rows. -/
def get_lead (db : List Lead) (lead_id : ℤ) : Except HTTPError Lead :=
  match db.find? (fun l => l.id == lead_id) with
  | none => .error (.notFound "Lead not found")
  | some l => .ok l

/-- The exclude_unset payload dict of a lead update is nonempty, i.e. the
setattr loop writes at least one attribute. -/
def leadUpdateHasField (u : LeadUpdate) : Bool :=
  u.name.isSome || u.company.isSome || u.phone.isSome || u.status.isSome ||
    u.source.isSome

/-- PUT /leads/{lead_id} (crm/router.py lines 127-160).  scorer embeds the
external ai_service.generate_lead_score call (applied to the post-update
email, name and company, as the handler builds lead_data from db_lead after
the setattr loop).  The score is recomputed exactly when "company" is among
the payload's set fields (the handler also tests for "industry", which is not
a LeadUpdate field, so only "company" can trigger).  now is the commit-time
clock: the Lead ORM model declares updated_at with onupdate=datetime.utcnow
(database/models.py line 34), so the UPDATE emitted by db.commit() rewrites
updated_at whenever at least one attribute was written by the handler (the
score write only happens when company is set, hence only on a nonempty
payload); an empty payload writes nothing, emits no UPDATE and leaves
updated_at unchanged. -/
def update_lead (scorer : String → String → String → ℚ) (current_user : AuthUser)
    (now : ℤ) (db : List Lead) (lead_id : ℤ) (u : LeadUpdate) : Except HTTPError Lead :=
  if !(check_permissions current_user "sales") then
    .error .forbidden
  else
    match db.find? (fun l => l.id == lead_id) with
    | none => .error (.notFound "Lead not found")
    | some l =>
        let l1 := applyLeadUpdate l u
        let l2 := if u.company.isSome then
            { l1 with score := scorer l1.email l1.name l1.company }
          else l1
        if leadUpdateHasField u then
          .ok { l2 with updated_at := now }
        else
          .ok l2

/-! ## ERP task store and handlers (erp/router.py) -/

/-- Mirrors the Task ORM model of src/backend/database/models.py
(the JSON metadata column is omitted). -/
structure ErpTask where
  id : ℤ
  title : String
  description : String
  status : String
  priority : String
  assigned_to : Option ℤ
  due_date : Option ℤ
  created_at : ℤ
  updated_at : ℤ
deriving DecidableEq

/-- Mirrors the TaskUpdate pydantic model (erp/router.py lines 22-27). -/
structure TaskUpdate where
  title : Option String
  description : Option String
  status : Option String
  priority : Option String
  due_date : Option ℤ
deriving DecidableEq

/-- The setattr loop of update_task (erp/router.py lines 110-111). -/
def applyTaskUpdate (t : ErpTask) (u : TaskUpdate) : ErpTask :=
  let t1 := match u.title with | some v => { t with title := v } | none => t
  let t2 := match u.description with | some v => { t1 with description := v } | none => t1
  let t3 := match u.status with | some v => { t2 with status := v } | none => t2
  let t4 := match u.priority with | some v => { t3 with priority := v } | none => t3
  match u.due_date with | some v => { t4 with due_date := some v } | none => t4

/-- GET /tasks/{task_id} (erp/router.py lines 80-90). -/
def get_task (db : List ErpTask) (task_id : ℤ) : Except HTTPError ErpTask :=
  match db.find? (fun t => t.id == task_id) with
  | none => .error (.notFound "Task not found")
  | some t => .ok t

/-- The exclude_unset payload dict of a task update is nonempty, i.e. the
setattr loop writes at least one attribute. -/
def taskUpdateHasField (u : TaskUpdate) : Bool :=
  u.title.isSome || u.description.isSome || u.status.isSome || u.priority.isSome ||
    u.due_date.isSome

/-- PUT /tasks/{task_id} (erp/router.py lines 92-115): permission check,
lookup-or-404, setattr loop, no AI branch.  now is the commit-time clock: the
Task ORM model declares updated_at with onupdate=datetime.utcnow
(database/models.py line 78), so the UPDATE emitted by db.commit() rewrites
updated_at whenever the payload wrote at least one attribute, and an empty
payload leaves the row (updated_at included) untouched. -/
def update_task (current_user : AuthUser) (now : ℤ) (db : List ErpTask) (task_id : ℤ)
    (u : TaskUpdate) : Except HTTPError ErpTask :=
  if !(check_permissions current_user "manager") then
    .error .forbidden
  else
    match db.find? (fun t => t.id == task_id) with
    | none => .error (.notFound "Task not found")
    | some t =>
        if taskUpdateHasField u then
          .ok { applyTaskUpdate t u with updated_at := now }
        else
          .ok (applyTaskUpdate t u)

/-! ## Deterministic analytics (app/services/ai_service.py)

The forecast functions operate on the chronologically ordered list of monthly
total amounts, i.e. on the amount column of the frame produced by the
groupby-month aggregation at the top of _generate_forecast. -/

/-- Python exceptions raised by the embedded analytics code paths. -/
inductive PyError where
  | keyOrIndexError : PyError
  | zeroDivisionError : PyError
deriving DecidableEq

/-- Tail of pandas Series.pct_change: each value paired against its
predecessor.  A float division by a zero predecessor (which produces an
infinite or NaN float) is embedded as a missing value. -/
def pctChangeGo (prev : ℚ) : List ℚ → List (Option ℚ)
  | [] => []
  | b :: rest => (if prev = 0 then none else some ((b - prev) / prev)) :: pctChangeGo b rest

/-- pandas Series.pct_change (ai_service.py line 78): the first entry is NaN
(none), entry i for i ≥ 1 is (a_i - a_{i-1}) / a_{i-1}. -/
def pctChange : List ℚ → List (Option ℚ)
  | [] => []
  | a :: rest => none :: pctChangeGo a rest

/-- pandas Series.mean with the default skipna: NaN entries are dropped; the
mean of no remaining values is NaN (none). -/
def pandasMean (l : List (Option ℚ)) : Option ℚ :=
  let vs := l.filterMap id
  if vs.length = 0 then none else some (vs.sum / (vs.length : ℚ))

/-- Sample variance with the pandas default ddof=1: NaN (none) on fewer than
two values. -/
def sampleVar (vs : List ℚ) : Option ℚ :=
  if vs.length < 2 then none
  else some ((vs.map (fun x => (x - vs.sum / (vs.length : ℚ)) ^ 2)).sum / ((vs.length : ℚ) - 1))

/-- pandas Series.std with the defaults ddof=1 and skipna: the square root of
the sample variance of the non-NaN entries, NaN (none) on fewer than two. -/
noncomputable def pandasStd (l : List (Option ℚ)) : Option ℝ :=
  (sampleVar (l.filterMap id)).map (fun v => Real.sqrt (v : ℝ))

/-- confidence = max(0, 1 - volatility) (ai_service.py lines 86-87), where
volatility is the std of the growth-rate column.  Python max(0, x) returns 0
when x is NaN, because NaN > 0 is false. -/
noncomputable def confidenceScore (monthly : List ℚ) : ℝ :=
  match pandasStd (pctChange monthly) with
  | none => 0
  | some s => max 0 (1 - s)

/-- The last n entries of the series: the final window of rolling(window=n). -/
def lastN (n : ℕ) (l : List ℚ) : List ℚ :=
  l.drop (l.length - n)

/-- pandas Series.mean over the raw (NaN-free) amount column; the guard in the
caller ensures the list is nonempty wherever this is used. -/
def meanAmount (l : List ℚ) : ℚ :=
  l.sum / (l.length : ℚ)

/-- AIService._identify_forecast_factors (ai_service.py lines 176-198),
mirroring the sequential conditional appends of the source: the trend
if/elif on the mean growth rate, the seasonality block guarded by
len >= 12 comparing the last rolling 12-month std against 20 percent of the
mean amount, then the volatility comparison of the growth-rate std against
0.2.  A NaN on the left of a Python > comparison makes it false, hence the
none branches. -/
noncomputable def identify_forecast_factors (monthly : List ℚ) : List String :=
  let factors : List String := []
  let factors :=
    match pandasMean (pctChange monthly) with
    | none => factors
    | some trend =>
        if (1 : ℚ)/10 < trend then factors ++ ["Strong upward trend in revenue"]
        else if trend < -((1 : ℚ)/10) then factors ++ ["Declining revenue trend"]
        else factors
  let factors :=
    if 12 ≤ monthly.length then
      match pandasStd ((lastN 12 monthly).map some) with
      | none => factors
      | some s =>
          if ((meanAmount monthly : ℝ)) * (2/10 : ℝ) < s then
            factors ++ ["Significant seasonal variations"]
          else factors
    else factors
  match pandasStd (pctChange monthly) with
  | none => factors
  | some s => if (2/10 : ℝ) < s then factors ++ ["High revenue volatility"] else factors

/-- The trend segment of the factor list: the if/elif on the mean growth
rate (upward above 0.1, declining below -0.1, nothing otherwise, nothing
when the mean is NaN). -/
def trendFactor (monthly : List ℚ) : List String :=
  match pandasMean (pctChange monthly) with
  | none => []
  | some trend =>
      if (1 : ℚ)/10 < trend then ["Strong upward trend in revenue"]
      else if trend < -((1 : ℚ)/10) then ["Declining revenue trend"]
      else []

/-- The seasonality segment of the factor list: only evaluated on at least
12 periods, present when the last rolling 12-month standard deviation of the
amounts exceeds 20 percent of the mean amount. -/
noncomputable def seasonalFactor (monthly : List ℚ) : List String :=
  if 12 ≤ monthly.length then
    match pandasStd ((lastN 12 monthly).map some) with
    | none => []
    | some s =>
        if ((meanAmount monthly : ℝ)) * (2/10 : ℝ) < s then
          ["Significant seasonal variations"]
        else []
  else []

/-- The volatility segment of the factor list: present when the standard
deviation of the growth rates exceeds 0.2 (absent when that deviation is
NaN, since NaN > 0.2 is false in Python). -/
noncomputable def volatilityFactor (monthly : List ℚ) : List String :=
  match pandasStd (pctChange monthly) with
  | none => []
  | some s => if (2/10 : ℝ) < s then ["High revenue volatility"] else []

/-- The dictionary returned by AIService._generate_forecast, with NaN floats
embedded as none. -/
structure ForecastOutput where
  revenue : Option ℚ
  expenses : Option ℚ
  confidence : ℝ
  factors : List String

/-- AIService._generate_forecast (ai_service.py lines 70-97) on the monthly
total series.  monthly_data.iloc[-1] on the empty frame raises (as does the
column access on the empty transaction frame upstream), embedded as the
keyOrIndexError branch; otherwise the result dictionary is built from the
last amount, the last growth rate, the fixed 0.8 expense ratio, the
volatility-based confidence and the factor list. -/
noncomputable def generate_forecast (monthly : List ℚ) : Except PyError ForecastOutput :=
  match monthly.getLast?, (pctChange monthly).getLast? with
  | some lastAmount, some lastGrowth =>
      .ok { revenue := lastGrowth.map (fun g => lastAmount * (1 + g))
          , expenses := some (lastAmount * (8/10))
          , confidence := confidenceScore monthly
          , factors := identify_forecast_factors monthly }
  | _, _ => .error .keyOrIndexError

/-! ## Recommendation heuristics (app/services/ai_service.py) and the ERP
dashboard recommendations endpoint (app/api/endpoints/erp.py) -/

/-- The fields of a Transaction row used by the analytics
(app/models/erp.py); type is income or expense, category one of the closed
category enumeration, both embedded as strings. -/
structure Transaction where
  type : String
  category : String
  amount : ℚ
deriving DecidableEq

/-- An Employee row reduced to the field the analytics reads
(app/models/erp.py): the hire date, in days. -/
structure Employee where
  hire_date : ℤ
deriving DecidableEq

/-- An Invoice row reduced to the fields the analytics reads
(app/models/erp.py): due date in days, and status. -/
structure Invoice where
  due_date : ℤ
  status : String
deriving DecidableEq

/-- The AIRecommendation schema (app/schemas/erp.py), with the interpolated
message string abstracted to the data it interpolates: the recommendation
type, the flagged category and its expense share for expense_optimization,
and the overdue count for invoice_processing. -/
structure AIRecommendation where
  rtype : String
  category : Option String
  share : Option ℚ
  count : Option ℕ
deriving DecidableEq

/-- The category_totals dict of _analyze_expenses (ai_service.py lines
104-107): an association list in insertion order of first occurrence,
accumulating amounts per category over the expense-typed transactions. -/
def categoryTotals (transactions : List Transaction) : List (String × ℚ) :=
  (transactions.filter (fun t => t.type == "expense")).foldl
    (fun acc t =>
      if acc.any (fun p => p.1 == t.category) then
        acc.map (fun p => if p.1 == t.category then (p.1, p.2 + t.amount) else p)
      else acc ++ [(t.category, t.amount)])
    []

/-- AIService._analyze_expenses (ai_service.py lines 99-126): flags each
category whose share amount / total_expenses exceeds 0.3, iterating the dict
in insertion order.  When the dict is nonempty but the total is zero, the
first Python division amount / total_expenses raises ZeroDivisionError. -/
def analyze_expenses (transactions : List Transaction) : Except PyError (List AIRecommendation) :=
  let totals := categoryTotals transactions
  let total := (totals.map Prod.snd).sum
  if !totals.isEmpty && total == 0 then
    .error .zeroDivisionError
  else
    .ok (totals.filterMap (fun p =>
      if (3 : ℚ)/10 < p.2 / total then
        some { rtype := "expense_optimization", category := some p.1
             , share := some (p.2 / total), count := none }
      else none))

/-- AIService._analyze_employee_retention (ai_service.py lines 128-151):
tenures are (now - hire_date).days; the average divides by len(tenures),
which raises ZeroDivisionError on an empty employee list; otherwise a single
retention recommendation is emitted iff the average tenure is below 365. -/
def analyze_employee_retention (now : ℤ) (employees : List Employee) :
    Except PyError (List AIRecommendation) :=
  let tenures := employees.map (fun e => now - e.hire_date)
  if tenures.length = 0 then
    .error .zeroDivisionError
  else
    let avg : ℚ := ((tenures.sum : ℚ)) / ((tenures.length : ℚ))
    .ok (if avg < 365 then
          [{ rtype := "employee_retention", category := none, share := none, count := none }]
         else [])

/-- AIService._analyze_invoices (ai_service.py lines 153-174): one
recommendation carrying the overdue count iff some invoice is past due and
not paid. -/
def analyze_invoices (now : ℤ) (invoices : List Invoice) : List AIRecommendation :=
  let overdue := invoices.filter (fun i => decide (i.due_date < now) && (i.status != "paid"))
  if overdue.isEmpty then []
  else [{ rtype := "invoice_processing", category := none, share := none
        , count := some overdue.length }]

/-- AIService.generate_recommendations (ai_service.py lines 47-68): expense,
then retention, then invoice recommendations, concatenated; an exception in
an earlier analysis propagates before the later ones run. -/
def generate_recommendations (now : ℤ) (transactions : List Transaction)
    (employees : List Employee) (invoices : List Invoice) :
    Except PyError (List AIRecommendation) :=
  match analyze_expenses transactions with
  | .error e => .error e
  | .ok expenseRecs =>
      match analyze_employee_retention now employees with
      | .error e => .error e
      | .ok retentionRecs =>
          .ok (expenseRecs ++ retentionRecs ++ analyze_invoices now invoices)

/-- The UserRole enumeration of app/models/erp.py. -/
inductive UserRole where
  | admin : UserRole
  | finance_manager : UserRole
  | hr_manager : UserRole
  | operations_manager : UserRole
deriving DecidableEq

/-- The relational rows visible to the recommendations endpoint. -/
structure ErpDatabase where
  transactions : List Transaction
  employees : List Employee
  invoices : List Invoice

/-- The transactions queried per role by get_ai_recommendations
(app/api/endpoints/erp.py lines 99-116). -/
def transactionsFor (role : UserRole) (db : ErpDatabase) : List Transaction :=
  match role with
  | .admin => db.transactions
  | .finance_manager =>
      db.transactions.filter (fun t => t.type == "income" || t.type == "expense")
  | .hr_manager => []
  | .operations_manager => []

/-- The employees queried per role by get_ai_recommendations: empty for
finance and operations managers. -/
def employeesFor (role : UserRole) (db : ErpDatabase) : List Employee :=
  match role with
  | .admin => db.employees
  | .finance_manager => []
  | .hr_manager => db.employees
  | .operations_manager => []

/-- The invoices queried per role by get_ai_recommendations. -/
def invoicesFor (role : UserRole) (db : ErpDatabase) : List Invoice :=
  match role with
  | .admin => db.invoices
  | .finance_manager => db.invoices
  | .hr_manager => []
  | .operations_manager => db.invoices

/-- GET /dashboard/recommendations (app/api/endpoints/erp.py lines 92-124):
role-dependent data selection followed by generate_recommendations. -/
def get_ai_recommendations (role : UserRole) (now : ℤ) (db : ErpDatabase) :
    Except PyError (List AIRecommendation) :=
  generate_recommendations now (transactionsFor role db) (employeesFor role db)
    (invoicesFor role db)

/-! ## Concrete fixtures used by witnesses and counterexamples -/

/-- A stored lead with score 0, used as a concrete store row. -/
def cexLead : Lead :=
  { id := 1, email := "ada@oldco.io", name := "Ada", company := "Oldco"
  , phone := none, status := "new", source := none, score := 0
  , created_at := 0, updated_at := 0 }

/-- A payload that sets only the company field. -/
def cexCompanyUpdate : LeadUpdate :=
  { name := none, company := some "Acme", phone := none, status := none, source := none }

/-- A payload with no field set at all. -/
def emptyLeadUpdate : LeadUpdate :=
  { name := none, company := none, phone := none, status := none, source := none }

/-- A gateway scorer returning the constant 42. -/
def cexScorer : String → String → String → ℚ := fun _ _ _ => 42

/-- A sales-role caller, authorized for the lead endpoints. -/
def cexSales : AuthUser :=
  { id := 7, email := "sales@oldco.io", is_active := true, is_superuser := false
  , role := "sales" }

/-- A manager-role caller, authorized for the task endpoints. -/
def cexManager : AuthUser :=
  { id := 8, email := "mgr@oldco.io", is_active := true, is_superuser := false
  , role := "manager" }

/-- A stored task fixture. -/
def cexTask : ErpTask :=
  { id := 3, title := "t", description := "d", status := "pending"
  , priority := "medium", assigned_to := some 8, due_date := none
  , created_at := 0, updated_at := 0 }

/-- A task payload setting only the status field. -/
def cexStatusUpdate : TaskUpdate :=
  { title := none, description := none, status := some "completed"
  , priority := none, due_date := none }

/-- The expense fixture of the spec's testable property: category totals
rent 3100, salaries 6000, other 900. -/
def cexExpenses : List Transaction :=
  [ { type := "expense", category := "rent", amount := 3100 }
  , { type := "expense", category := "salaries", amount := 6000 }
  , { type := "expense", category := "other", amount := 900 } ]

/-- An empty relational store. -/
def emptyErpDb : ErpDatabase := { transactions := [], employees := [], invoices := [] }

/-! ## Theorems -/

/-- C1: for every actor and required capability, check_permissions returns
true iff the actor's role string equals the required capability or the
actor's superuser flag is set.  The function is a pure Boolean predicate of
the already-loaded actor row, so the statement quantifies over every possible
role string, which subsumes the exhaustive table over the closed role
enumeration (admin, finance-manager, hr-manager, operations-manager, sales,
marketing, support). -/
theorem check_permissions_iff (user : AuthUser) (required_role : String) :
    check_permissions user required_role = true ↔
      (user.role = required_role ∨ user.is_superuser = true) := by
  simp [check_permissions]

/-- C3 (code bug): _generate_forecast does not fail with a structured
InsufficientData error on fewer than 2 periods.  On 0 periods it raises an
untyped pandas key/index error; on exactly 1 period (amount 100) it returns a
successful forecast whose predicted revenue is NaN (the pct_change of a
single row), with expenses 80 and confidence 0, instead of failing. -/
theorem forecast_short_series_no_failure :
    generate_forecast [] = .error PyError.keyOrIndexError ∧
    generate_forecast [100] = .ok ⟨none, some 80, 0, []⟩ := by
  constructor
  · rfl
  · norm_num [generate_forecast, pctChange, pctChangeGo, confidenceScore, pandasStd,
      sampleVar, pandasMean, identify_forecast_factors, lastN, meanAmount,
      List.filterMap_cons, List.filterMap_nil]

/-- C4: on the 2-period series [100, 110] the forecast computes a last growth
rate of 1/10, predicted revenue 121 = 110 * (1 + 1/10) and predicted expenses
88 = 110 * 0.8. -/
theorem forecast_two_periods_100_110 :
    (pctChange [100, 110]).getLast? = some (some ((1 : ℚ)/10)) ∧
    generate_forecast [100, 110] = .ok ⟨some 121, some 88, 0, []⟩ := by
  constructor
  · norm_num [pctChange, pctChangeGo]
  · norm_num [generate_forecast, pctChange, pctChangeGo, confidenceScore, pandasStd,
      sampleVar, pandasMean, identify_forecast_factors, lastN, meanAmount,
      List.filterMap_cons, List.filterMap_nil]

/-- Field-wise description of the lead setattr loop: fields present in the
payload are written, all other columns carried over. -/
theorem applyLeadUpdate_fields (l : Lead) (u : LeadUpdate) :
    (applyLeadUpdate l u).id = l.id ∧
    (applyLeadUpdate l u).email = l.email ∧
    (applyLeadUpdate l u).score = l.score ∧
    (applyLeadUpdate l u).created_at = l.created_at ∧
    (applyLeadUpdate l u).updated_at = l.updated_at ∧
    (applyLeadUpdate l u).name = u.name.getD l.name ∧
    (applyLeadUpdate l u).company = u.company.getD l.company ∧
    (applyLeadUpdate l u).phone = (match u.phone with | some v => some v | none => l.phone) ∧
    (applyLeadUpdate l u).status = u.status.getD l.status ∧
    (applyLeadUpdate l u).source = (match u.source with | some v => some v | none => l.source) := by
  obtain ⟨un, uc, up, us, uso⟩ := u
  cases un <;> cases uc <;> cases up <;> cases us <;> cases uso <;>
    simp [applyLeadUpdate]

/-- Field-wise description of the task setattr loop. -/
theorem applyTaskUpdate_fields (t : ErpTask) (u : TaskUpdate) :
    (applyTaskUpdate t u).id = t.id ∧
    (applyTaskUpdate t u).assigned_to = t.assigned_to ∧
    (applyTaskUpdate t u).created_at = t.created_at ∧
    (applyTaskUpdate t u).updated_at = t.updated_at ∧
    (applyTaskUpdate t u).title = u.title.getD t.title ∧
    (applyTaskUpdate t u).description = u.description.getD t.description ∧
    (applyTaskUpdate t u).status = u.status.getD t.status ∧
    (applyTaskUpdate t u).priority = u.priority.getD t.priority ∧
    (applyTaskUpdate t u).due_date = (match u.due_date with | some v => some v | none => t.due_date) := by
  obtain ⟨ut, ud, us, up, udd⟩ := u
  cases ut <;> cases ud <;> cases us <;> cases up <;> cases udd <;>
    simp [applyTaskUpdate]

/-- C2 (counterexample): a payload that sets only company leaves the score
field unmentioned, yet update_lead overwrites the stored score 0 with the AI
scorer's value 42, so an unmentioned field is not byte-identical after the
update. -/
theorem update_lead_rescoring_cex :
    (update_lead cexScorer cexSales 99 [cexLead] 1 cexCompanyUpdate).map Lead.score = .ok 42 ∧
    cexLead.score = 0 ∧ (42 : ℚ) ≠ 0 := by
  refine ⟨rfl, rfl, by norm_num⟩

/-- C2 (amended): a successful partial update writes exactly the payload's
set fields and carries every other column over unchanged, with two exceptions
forced by the code: update_lead recomputes the AI score whenever company is
among the payload's set fields (and leaves it unchanged otherwise), and both
handlers refresh the ORM updated_at column to the commit time whenever the
payload sets at least one field (onupdate=datetime.utcnow fires with the
emitted UPDATE); apart from score and updated_at, update_task and update_lead
touch no field outside the payload. -/
theorem update_partial_frame :
    (∀ (sc : String → String → String → ℚ) (cu : AuthUser) (now : ℤ) (db : List Lead)
       (i : ℤ) (u : LeadUpdate) (l l' : Lead),
       db.find? (fun x => x.id == i) = some l →
       update_lead sc cu now db i u = .ok l' →
       l'.id = l.id ∧ l'.email = l.email ∧ l'.created_at = l.created_at ∧
       l'.updated_at = (if leadUpdateHasField u then now else l.updated_at) ∧
       l'.name = u.name.getD l.name ∧
       l'.company = u.company.getD l.company ∧
       l'.phone = (match u.phone with | some v => some v | none => l.phone) ∧
       l'.status = u.status.getD l.status ∧
       l'.source = (match u.source with | some v => some v | none => l.source) ∧
       l'.score = (if u.company.isSome then
                     sc l.email (u.name.getD l.name) (u.company.getD l.company)
                   else l.score)) ∧
    (∀ (cu : AuthUser) (now : ℤ) (db : List ErpTask) (i : ℤ) (u : TaskUpdate)
       (t t' : ErpTask),
       db.find? (fun x => x.id == i) = some t →
       update_task cu now db i u = .ok t' →
       t'.id = t.id ∧ t'.assigned_to = t.assigned_to ∧ t'.created_at = t.created_at ∧
       t'.updated_at = (if taskUpdateHasField u then now else t.updated_at) ∧
       t'.title = u.title.getD t.title ∧
       t'.description = u.description.getD t.description ∧
       t'.status = u.status.getD t.status ∧
       t'.priority = u.priority.getD t.priority ∧
       t'.due_date = (match u.due_date with | some v => some v | none => t.due_date)) := by
  constructor
  · intro sc cu now db i u l l' hf hu
    obtain ⟨hid, hem, hsc, hca, hua, hna, hco, hph, hst, hso⟩ := applyLeadUpdate_fields l u
    simp only [update_lead, hf] at hu
    cases hpc : check_permissions cu "sales" with
    | false => simp [hpc] at hu
    | true =>
      cases hd : leadUpdateHasField u with
      | false =>
        cases hc : u.company.isSome with
        | false =>
          simp [hpc, hc, hd] at hu
          subst hu
          simp_all
        | true =>
          simp [hpc, hc, hd] at hu
          subst hu
          simp_all
      | true =>
        cases hc : u.company.isSome with
        | false =>
          simp [hpc, hc, hd] at hu
          subst hu
          simp_all
        | true =>
          simp [hpc, hc, hd] at hu
          subst hu
          simp_all
  · intro cu now db i u t t' hf hu
    obtain ⟨hid, has, hca, hua, hti, hde, hst, hpr, hdd⟩ := applyTaskUpdate_fields t u
    simp only [update_task, hf] at hu
    cases hpc : check_permissions cu "manager" with
    | false => simp [hpc] at hu
    | true =>
      cases hd : taskUpdateHasField u with
      | false =>
        simp [hpc, hd] at hu
        subst hu
        simp_all
      | true =>
        simp [hpc, hd] at hu
        subst hu
        simp_all

/-- C2 (witness): the amended frame theorem applied to a concrete authorized
lead update with an empty payload (no UPDATE emitted, updated_at kept) and a
concrete authorized task update that sets only status (UPDATE emitted,
updated_at refreshed to the commit time 77). -/
theorem update_partial_frame_witness :
    List.find? (fun x => x.id == (1 : ℤ)) [cexLead] = some cexLead ∧
    update_lead cexScorer cexSales 77 [cexLead] 1 emptyLeadUpdate = .ok cexLead ∧
    cexLead.status = emptyLeadUpdate.status.getD cexLead.status ∧
    cexLead.updated_at =
      (if leadUpdateHasField emptyLeadUpdate then (77 : ℤ) else cexLead.updated_at) ∧
    List.find? (fun x => x.id == (3 : ℤ)) [cexTask] = some cexTask ∧
    update_task cexManager 77 [cexTask] 3 cexStatusUpdate =
      .ok { applyTaskUpdate cexTask cexStatusUpdate with updated_at := 77 } ∧
    ({ applyTaskUpdate cexTask cexStatusUpdate with updated_at := (77 : ℤ) }).status =
      cexStatusUpdate.status.getD cexTask.status ∧
    ({ applyTaskUpdate cexTask cexStatusUpdate with updated_at := (77 : ℤ) }).updated_at =
      (if taskUpdateHasField cexStatusUpdate then (77 : ℤ) else cexTask.updated_at) := by
  have hlead := update_partial_frame.1 cexScorer cexSales 77 [cexLead] 1 emptyLeadUpdate
    cexLead cexLead rfl rfl
  have htask := update_partial_frame.2 cexManager 77 [cexTask] 3 cexStatusUpdate
    cexTask { applyTaskUpdate cexTask cexStatusUpdate with updated_at := 77 } rfl rfl
  exact ⟨rfl, rfl, hlead.2.2.2.2.2.2.2.1, hlead.2.2.2.1, rfl, rfl,
    htask.2.2.2.2.2.2.1, htask.2.2.2.1⟩

/-- C9: for both embedded entity kinds, a GET whose identifier matches no
stored row fails with the 404 NotFound error, and conversely any successful
GET returns exactly a stored row (never a null or empty body). -/
theorem get_unknown_id_not_found :
    (∀ (db : List Lead) (i : ℤ), db.find? (fun l => l.id == i) = none →
       get_lead db i = .error (HTTPError.notFound "Lead not found")) ∧
    (∀ (db : List Lead) (i : ℤ) (l : Lead), get_lead db i = .ok l →
       db.find? (fun x => x.id == i) = some l) ∧
    (∀ (db : List ErpTask) (i : ℤ), db.find? (fun t => t.id == i) = none →
       get_task db i = .error (HTTPError.notFound "Task not found")) ∧
    (∀ (db : List ErpTask) (i : ℤ) (t : ErpTask), get_task db i = .ok t →
       db.find? (fun x => x.id == i) = some t) := by
  refine ⟨?_, ?_, ?_, ?_⟩
  · intro db i h
    simp [get_lead, h]
  · intro db i l h
    unfold get_lead at h
    cases hf : db.find? (fun x => x.id == i) <;> simp_all
  · intro db i h
    simp [get_task, h]
  · intro db i t h
    unfold get_task at h
    cases hf : db.find? (fun x => x.id == i) <;> simp_all

/-- C9 (witness): the empty stores resolve no identifier, and both GETs fail
with 404 there. -/
theorem get_unknown_id_not_found_witness :
    List.find? (fun l => l.id == (1 : ℤ)) ([] : List Lead) = none ∧
    get_lead [] 1 = .error (HTTPError.notFound "Lead not found") ∧
    List.find? (fun t => t.id == (1 : ℤ)) ([] : List ErpTask) = none ∧
    get_task [] 1 = .error (HTTPError.notFound "Task not found") := by
  exact ⟨rfl, get_unknown_id_not_found.1 [] 1 rfl, rfl,
    get_unknown_id_not_found.2.2.1 [] 1 rfl⟩

/-- C10: the retention analysis on an empty employee list divides the tenure
sum by zero and raises; the recommendations endpoint queries an empty
employee list for every finance-manager and operations-manager caller, so
whenever the preceding expense analysis succeeds the endpoint propagates the
uncaught ZeroDivisionError instead of returning an empty recommendation
list. -/
theorem retention_empty_division :
    (∀ now : ℤ, analyze_employee_retention now [] = .error PyError.zeroDivisionError) ∧
    (∀ (role : UserRole) (now : ℤ) (db : ErpDatabase),
       role = UserRole.finance_manager ∨ role = UserRole.operations_manager →
       employeesFor role db = [] ∧
       (∀ recs, analyze_expenses (transactionsFor role db) = .ok recs →
          get_ai_recommendations role now db = .error PyError.zeroDivisionError)) := by
  constructor
  · intro now
    rfl
  · rintro role now db (rfl | rfl) <;>
      refine ⟨rfl, fun recs hrecs => ?_⟩ <;>
      simp [get_ai_recommendations, generate_recommendations, employeesFor, hrecs,
        analyze_employee_retention]

/-- C10 (witness): an operations-manager call on the empty store reaches the
retention analysis (the expense analysis trivially succeeds) and the endpoint
fails with the division-by-zero error. -/
theorem retention_empty_division_witness :
    analyze_expenses (transactionsFor UserRole.operations_manager emptyErpDb) = .ok [] ∧
    employeesFor UserRole.operations_manager emptyErpDb = [] ∧
    get_ai_recommendations UserRole.operations_manager 0 emptyErpDb =
      .error PyError.zeroDivisionError := by
  refine ⟨rfl, rfl, ?_⟩
  exact (retention_empty_division.2 UserRole.operations_manager 0 emptyErpDb
    (Or.inr rfl)).2 [] rfl

/-- C8: the expense analysis emits a recommendation for exactly the
categories whose share of total expenses exceeds 30 percent, iterating the
category-totals dict in insertion order of first occurrence (stated for any
transaction list whose expense total is nonzero, since the Python division
raises otherwise); on the fixture with totals rent 3100, salaries 6000,
other 900 it flags rent (31 percent) then salaries (60 percent) and omits
other (9 percent). -/
theorem expense_optimization_over_30 :
    (∀ (transactions : List Transaction) (recs : List AIRecommendation),
       ((categoryTotals transactions).map Prod.snd).sum ≠ 0 →
       analyze_expenses transactions = .ok recs →
       recs.map (fun r => r.category) =
         ((categoryTotals transactions).filter
            (fun p => decide ((3 : ℚ)/10 <
              p.2 / ((categoryTotals transactions).map Prod.snd).sum))).map
           (fun p => some p.1)) ∧
    analyze_expenses cexExpenses =
      .ok [ { rtype := "expense_optimization", category := some "rent"
            , share := some (31/100), count := none }
          , { rtype := "expense_optimization", category := some "salaries"
            , share := some (3/5), count := none } ] := by
  constructor
  · intro transactions recs hne h
    unfold analyze_expenses at h
    rw [if_neg (by simp [hne])] at h
    simp only [Except.ok.injEq] at h
    subst h
    generalize ((categoryTotals transactions).map Prod.snd).sum = t
    generalize categoryTotals transactions = L
    induction L with
    | nil => rfl
    | cons a l ih =>
      by_cases hcond : (3 : ℚ)/10 < a.2 / t <;>
        simp [hcond, ih]
  · simp +decide [analyze_expenses, categoryTotals, cexExpenses]
    norm_num [List.filterMap_cons, List.filterMap_nil]

/-- C8 (witness): the share characterization applied to the concrete expense
fixture, whose total 10000 is nonzero; the flagged categories are rent then
salaries, in insertion order. -/
theorem expense_optimization_over_30_witness :
    ((categoryTotals cexExpenses).map Prod.snd).sum = 10000 ∧
    analyze_expenses cexExpenses =
      .ok [ { rtype := "expense_optimization", category := some "rent"
            , share := some (31/100), count := none }
          , { rtype := "expense_optimization", category := some "salaries"
            , share := some (3/5), count := none } ] ∧
    [ { rtype := "expense_optimization", category := some "rent"
      , share := some ((31 : ℚ)/100), count := none }
    , { rtype := "expense_optimization", category := some "salaries"
      , share := some ((3 : ℚ)/5), count := none } ].map
        (fun r => AIRecommendation.category r) =
      ((categoryTotals cexExpenses).filter
         (fun p => decide ((3 : ℚ)/10 <
           p.2 / ((categoryTotals cexExpenses).map Prod.snd).sum))).map
        (fun p => some p.1) := by
  have htot : ((categoryTotals cexExpenses).map Prod.snd).sum = 10000 := by
    simp +decide [categoryTotals, cexExpenses]
    norm_num
  have heval : analyze_expenses cexExpenses =
      .ok [ { rtype := "expense_optimization", category := some "rent"
            , share := some (31/100), count := none }
          , { rtype := "expense_optimization", category := some "salaries"
            , share := some (3/5), count := none } ] := by
    simp +decide [analyze_expenses, categoryTotals, cexExpenses]
    norm_num [List.filterMap_cons, List.filterMap_nil]
  refine ⟨htot, heval, ?_⟩
  exact expense_optimization_over_30.1 cexExpenses _ (by rw [htot]; norm_num) heval

/-- Growth rates are unchanged when every amount is scaled by a nonzero
constant: the tail recursion of pct_change, entry by entry. -/
theorem pctChangeGo_scale (c : ℚ) (hc : c ≠ 0) :
    ∀ (l : List ℚ) (prev : ℚ),
      pctChangeGo (c * prev) (l.map (fun a => c * a)) = pctChangeGo prev l := by
  intro l
  induction l with
  | nil => intro prev; rfl
  | cons b rest ih =>
    intro prev
    simp only [List.map_cons, pctChangeGo, ih b]
    congr 1
    by_cases hp : prev = 0
    · simp [hp]
    · have hcp : c * prev ≠ 0 := mul_ne_zero hc hp
      rw [if_neg hcp, if_neg hp]
      congr 1
      field_simp
      ring

/-- pct_change is invariant under scaling every amount by a nonzero
constant. -/
theorem pctChange_scale (c : ℚ) (hc : c ≠ 0) (l : List ℚ) :
    pctChange (l.map (fun a => c * a)) = pctChange l := by
  cases l with
  | nil => rfl
  | cons a rest => simp only [List.map_cons, pctChange, pctChangeGo_scale c hc]

/-- A successful forecast's confidence and factor fields are exactly the
confidence score and factor list of the input series. -/
theorem generate_forecast_ok_fields :
    ∀ (monthly : List ℚ) (r : ForecastOutput), generate_forecast monthly = .ok r →
      r.confidence = confidenceScore monthly ∧
      r.factors = identify_forecast_factors monthly := by
  intro monthly r h
  unfold generate_forecast at h
  cases hl : monthly.getLast? with
  | none => rw [hl] at h; simp at h
  | some a =>
    cases hg : (pctChange monthly).getLast? with
    | none => rw [hl, hg] at h; simp at h
    | some g =>
      rw [hl, hg] at h
      simp only [Except.ok.injEq] at h
      subst h
      exact ⟨rfl, rfl⟩

/-- C5: multiplying every monthly amount by a positive constant leaves the
confidence score unchanged and scales predicted revenue and predicted
expenses by exactly that constant. -/
theorem forecast_scale_invariant :
    ∀ (monthly : List ℚ) (c : ℚ), 0 < c → 2 ≤ monthly.length →
      ∀ (r r' : ForecastOutput),
        generate_forecast monthly = .ok r →
        generate_forecast (monthly.map (fun a => c * a)) = .ok r' →
        r'.confidence = r.confidence ∧
        r'.revenue = r.revenue.map (fun x => c * x) ∧
        r'.expenses = r.expenses.map (fun x => c * x) := by
  intro monthly c hc hlen r r' h h'
  have hc0 : c ≠ 0 := ne_of_gt hc
  have hpc := pctChange_scale c hc0 monthly
  have hconf : confidenceScore (monthly.map (fun a => c * a)) = confidenceScore monthly := by
    unfold confidenceScore
    rw [hpc]
  unfold generate_forecast at h h'
  rw [hpc, List.getLast?_map] at h'
  cases hl : monthly.getLast? with
  | none => rw [hl] at h; simp at h
  | some a =>
    cases hg : (pctChange monthly).getLast? with
    | none => rw [hl, hg] at h; simp at h
    | some g =>
      rw [hl, hg] at h
      rw [hl, hg] at h'
      simp only [Option.map_some', Except.ok.injEq] at h h'
      subst h
      subst h'
      refine ⟨hconf, ?_, ?_⟩
      · cases g with
        | none => rfl
        | some gr => simp only [Option.map_some']; congr 1; ring
      · simp only [Option.map_some']; congr 1; ring

/-- C5 (witness): scale invariance applied to the series [100, 110] with the
positive constant 2, whose scaled series [200, 220] forecasts revenue 242 and
expenses 176 against 121 and 88. -/
theorem forecast_scale_invariant_witness :
    (0 : ℚ) < 2 ∧ 2 ≤ [(100 : ℚ), 110].length ∧
    generate_forecast [(100 : ℚ), 110] = .ok ⟨some 121, some 88, 0, []⟩ ∧
    generate_forecast ([(100 : ℚ), 110].map (fun a => 2 * a)) =
      .ok ⟨some 242, some 176, 0, []⟩ ∧
    (0 : ℝ) = (0 : ℝ) ∧
    (some (242 : ℚ)) = (some (121 : ℚ)).map (fun x => 2 * x) ∧
    (some (176 : ℚ)) = (some (88 : ℚ)).map (fun x => 2 * x) := by
  have h1 : generate_forecast [(100 : ℚ), 110] = .ok ⟨some 121, some 88, 0, []⟩ := by
    norm_num [generate_forecast, pctChange, pctChangeGo, confidenceScore, pandasStd,
      sampleVar, pandasMean, identify_forecast_factors, lastN, meanAmount,
      List.filterMap_cons, List.filterMap_nil]
  have h2 : generate_forecast ([(100 : ℚ), 110].map (fun a => 2 * a)) =
      .ok ⟨some 242, some 176, 0, []⟩ := by
    norm_num [generate_forecast, pctChange, pctChangeGo, confidenceScore, pandasStd,
      sampleVar, pandasMean, identify_forecast_factors, lastN, meanAmount,
      List.filterMap_cons, List.filterMap_nil, List.map_cons, List.map_nil]
  have key := forecast_scale_invariant [(100 : ℚ), 110] 2 (by norm_num) (by norm_num)
    ⟨some 121, some 88, 0, []⟩ ⟨some 242, some 176, 0, []⟩ h1 h2
  exact ⟨by norm_num, by norm_num, h1, h2, key.1, key.2.1, key.2.2⟩

/-- C6: on every series for which the forecast returns a result, the
confidence equals max(0, 1 - std) whenever the sample standard deviation of
the growth rates is defined, equals 0 when that deviation is NaN (the Python
max(0, 1 - nan) path), and always lies in the closed interval [0, 1]. -/
theorem confidence_formula_and_bounds :
    ∀ (monthly : List ℚ) (r : ForecastOutput), generate_forecast monthly = .ok r →
      (∀ s : ℝ, pandasStd (pctChange monthly) = some s →
         r.confidence = max 0 (1 - s)) ∧
      (pandasStd (pctChange monthly) = none → r.confidence = 0) ∧
      0 ≤ r.confidence ∧ r.confidence ≤ 1 := by
  intro monthly r h
  have hcs := (generate_forecast_ok_fields monthly r h).1
  cases hs : pandasStd (pctChange monthly) with
  | none =>
    have hc0 : r.confidence = 0 := by
      rw [hcs]; unfold confidenceScore; rw [hs]
    exact ⟨fun s hss => Option.noConfusion hss, fun _ => hc0,
      by rw [hc0], by rw [hc0]; norm_num⟩
  | some s =>
    have hs0 : 0 ≤ s := by
      obtain ⟨v, hv, rfl⟩ := Option.map_eq_some'.1 hs
      exact Real.sqrt_nonneg _
    have hc1 : r.confidence = max 0 (1 - s) := by
      rw [hcs]; unfold confidenceScore; rw [hs]
    refine ⟨?_, ?_, ?_, ?_⟩
    · intro s' hss
      obtain rfl : s = s' := Option.some.inj hss
      exact hc1
    · intro hn
      exact Option.noConfusion hn
    · rw [hc1]; exact le_max_left _ _
    · rw [hc1]; exact max_le (by norm_num) (by linarith)

/-- C6 (witness): the confidence bounds applied to the concrete forecast of
[100, 110], whose confidence is 0 (growth-rate std is NaN there). -/
theorem confidence_formula_and_bounds_witness :
    generate_forecast [(100 : ℚ), 110] = .ok ⟨some 121, some 88, 0, []⟩ ∧
    0 ≤ ((⟨some 121, some 88, 0, []⟩ : ForecastOutput)).confidence ∧
    ((⟨some 121, some 88, 0, []⟩ : ForecastOutput)).confidence ≤ 1 := by
  have h1 : generate_forecast [(100 : ℚ), 110] = .ok ⟨some 121, some 88, 0, []⟩ := by
    norm_num [generate_forecast, pctChange, pctChangeGo, confidenceScore, pandasStd,
      sampleVar, pandasMean, identify_forecast_factors, lastN, meanAmount,
      List.filterMap_cons, List.filterMap_nil]
  have key := confidence_formula_and_bounds [(100 : ℚ), 110] ⟨some 121, some 88, 0, []⟩ h1
  exact ⟨h1, key.2.2.1, key.2.2.2⟩

/-- The sequential conditional appends of _identify_forecast_factors produce
exactly the trend segment, then the seasonality segment, then the volatility
segment. -/
theorem identify_forecast_factors_eq (monthly : List ℚ) :
    identify_forecast_factors monthly =
      trendFactor monthly ++ seasonalFactor monthly ++ volatilityFactor monthly := by
  unfold identify_forecast_factors trendFactor seasonalFactor volatilityFactor
  cases hm : pandasMean (pctChange monthly) <;>
    cases hv : pandasStd (pctChange monthly) <;>
      by_cases h12 : 12 ≤ monthly.length <;>
        cases hss : pandasStd ((lastN 12 monthly).map some) <;>
          simp only [hm, hv, h12, hss, if_true, if_false, List.nil_append,
            List.append_nil] <;>
          split_ifs <;>
          simp

/-- The upward-trend entry is present iff the mean growth rate exceeds 0.1. -/
theorem up_mem_iff (monthly : List ℚ) :
    "Strong upward trend in revenue" ∈
        trendFactor monthly ++ seasonalFactor monthly ++ volatilityFactor monthly ↔
      (∃ t, pandasMean (pctChange monthly) = some t ∧ (1 : ℚ)/10 < t) := by
  cases hm : pandasMean (pctChange monthly) <;>
    by_cases h12 : 12 ≤ monthly.length <;>
      cases hss : pandasStd ((lastN 12 monthly).map some) <;>
        cases hv : pandasStd (pctChange monthly) <;>
          simp [trendFactor, seasonalFactor, volatilityFactor, hm, h12, hss, hv] <;>
            split_ifs <;> simp_all

/-- The declining-trend entry is present iff the mean growth rate is below
-0.1. -/
theorem decl_mem_iff (monthly : List ℚ) :
    "Declining revenue trend" ∈
        trendFactor monthly ++ seasonalFactor monthly ++ volatilityFactor monthly ↔
      (∃ t, pandasMean (pctChange monthly) = some t ∧ t < -((1 : ℚ)/10)) := by
  cases hm : pandasMean (pctChange monthly) <;>
    by_cases h12 : 12 ≤ monthly.length <;>
      cases hss : pandasStd ((lastN 12 monthly).map some) <;>
        cases hv : pandasStd (pctChange monthly) <;>
          simp [trendFactor, seasonalFactor, volatilityFactor, hm, h12, hss, hv] <;>
            split_ifs <;> simp_all <;> linarith

/-- The seasonal-variation entry is present iff the series has at least 12
periods and the last rolling 12-month std exceeds 20 percent of the mean. -/
theorem seasonal_mem_iff (monthly : List ℚ) :
    "Significant seasonal variations" ∈
        trendFactor monthly ++ seasonalFactor monthly ++ volatilityFactor monthly ↔
      (12 ≤ monthly.length ∧
         ∃ s, pandasStd ((lastN 12 monthly).map some) = some s ∧
           ((meanAmount monthly : ℝ)) * (2/10 : ℝ) < s) := by
  cases hm : pandasMean (pctChange monthly) <;>
    by_cases h12 : 12 ≤ monthly.length <;>
      cases hss : pandasStd ((lastN 12 monthly).map some) <;>
        cases hv : pandasStd (pctChange monthly) <;>
          simp [trendFactor, seasonalFactor, volatilityFactor, hm, h12, hss, hv] <;>
            split_ifs <;> simp_all

/-- The high-volatility entry is present iff the growth-rate std exceeds
0.2. -/
theorem vol_mem_iff (monthly : List ℚ) :
    "High revenue volatility" ∈
        trendFactor monthly ++ seasonalFactor monthly ++ volatilityFactor monthly ↔
      (∃ s, pandasStd (pctChange monthly) = some s ∧ (2/10 : ℝ) < s) := by
  cases hm : pandasMean (pctChange monthly) <;>
    by_cases h12 : 12 ≤ monthly.length <;>
      cases hss : pandasStd ((lastN 12 monthly).map some) <;>
        cases hv : pandasStd (pctChange monthly) <;>
          simp [trendFactor, seasonalFactor, volatilityFactor, hm, h12, hss, hv] <;>
            split_ifs <;> simp_all

/-- C7: on every series for which the forecast returns a result, the factor
list is the trend segment, then the seasonality segment, then the volatility
segment (each omitted when its condition fails), and each of the four entries
is present iff its spec condition holds: upward trend iff mean growth > 0.1,
declining trend iff mean growth < -0.1, seasonal variation iff at least 12
periods and the last rolling 12-period std exceeds 20 percent of the mean
amount, high volatility iff the growth-rate std exceeds 0.2. -/
theorem forecast_factors_characterization :
    ∀ (monthly : List ℚ) (r : ForecastOutput), generate_forecast monthly = .ok r →
      r.factors =
        trendFactor monthly ++ seasonalFactor monthly ++ volatilityFactor monthly ∧
      ("Strong upward trend in revenue" ∈ r.factors ↔
         (∃ t, pandasMean (pctChange monthly) = some t ∧ (1 : ℚ)/10 < t)) ∧
      ("Declining revenue trend" ∈ r.factors ↔
         (∃ t, pandasMean (pctChange monthly) = some t ∧ t < -((1 : ℚ)/10))) ∧
      ("Significant seasonal variations" ∈ r.factors ↔
         (12 ≤ monthly.length ∧
            ∃ s, pandasStd ((lastN 12 monthly).map some) = some s ∧
              ((meanAmount monthly : ℝ)) * (2/10 : ℝ) < s)) ∧
      ("High revenue volatility" ∈ r.factors ↔
         (∃ s, pandasStd (pctChange monthly) = some s ∧ (2/10 : ℝ) < s)) := by
  intro monthly r h
  have hfac := (generate_forecast_ok_fields monthly r h).2
  rw [hfac, identify_forecast_factors_eq]
  exact ⟨rfl, up_mem_iff monthly, decl_mem_iff monthly, seasonal_mem_iff monthly,
    vol_mem_iff monthly⟩

/-- C7 (witness): the characterization applied to the concrete forecast of
[100, 110], whose factor list is empty (mean growth 0.1 is not above 0.1,
only 2 periods, growth-rate std NaN). -/
theorem forecast_factors_characterization_witness :
    generate_forecast [(100 : ℚ), 110] = .ok ⟨some 121, some 88, 0, []⟩ ∧
    ([] : List String) =
      trendFactor [(100 : ℚ), 110] ++ seasonalFactor [(100 : ℚ), 110] ++
        volatilityFactor [(100 : ℚ), 110] ∧
    ¬ ("High revenue volatility" ∈ ([] : List String)) := by
  have h1 : generate_forecast [(100 : ℚ), 110] = .ok ⟨some 121, some 88, 0, []⟩ := by
    norm_num [generate_forecast, pctChange, pctChangeGo, confidenceScore, pandasStd,
      sampleVar, pandasMean, identify_forecast_factors, lastN, meanAmount,
      List.filterMap_cons, List.filterMap_nil]
  have key := forecast_factors_characterization [(100 : ℚ), 110]
    ⟨some 121, some 88, 0, []⟩ h1
  exact ⟨h1, key.1, by simp⟩
